import Mathlib

/-!
Verification of the uWindsorCourseSearchBot scrape-and-index core
(`src/uwin.rs`, `src/main.rs`) against its natural-language specification.

The Rust code is shallowly embedded: the network transport is a parameter
`fetch : Request → Except String Node` (a transport error is a `String`
message), fetched HTML pages are modelled by the `Node` tree together with
an embedding of the selector combinators of the `select` crate actually
used by the code, and each scraping function of `Scraper` is translated
match-for-match from the source.  Failure follows the source shapes: a
`failure::Error` value is one of the `Err` constructors below, and a Rust
panic (from `str::split_at`) is the dedicated `Outcome.panicked` result.
-/

/-- The error universe of the program (`failure::Error` values produced or
inspected by the code): `ParseError(&'static str)`, `QueryError(_)`,
transport errors from `reqwest`, and index storage or engine I/O errors
from `tantivy`/`std::fs`. -/
inductive Err where
  | parse : String → Err
  | query : String → Err
  | transport : String → Err
  | io : String → Err
deriving DecidableEq, Repr

/-- Result of running a fallible Rust function that may also panic.
`panicked` models an uncaught panic (there is no `catch_unwind` in the
program), `fail` models `Result::Err`, `ok` models `Result::Ok`. -/
inductive Outcome (α : Type) where
  | panicked : Outcome α
  | fail : Err → Outcome α
  | ok : α → Outcome α
deriving DecidableEq, Repr

def Outcome.isOk {α : Type} : Outcome α → Bool
  | .ok _ => true
  | _ => false

def Outcome.map {α β : Type} (f : α → β) : Outcome α → Outcome β
  | .panicked => .panicked
  | .fail e => .fail e
  | .ok a => .ok (f a)

def Outcome.bind {α β : Type} : Outcome α → (α → Outcome β) → Outcome β
  | .panicked, _ => .panicked
  | .fail e, _ => .fail e
  | .ok a, f => f a

/-- `iter.map(f).collect::<Result<Vec<_>, Error>>()`: evaluate `f` on the
elements in order, stopping at the first non-`ok` outcome.  Also used for
the `rayon` parallel collect in `scrape_courses`; there the error returned
is the first by completion order, which the sequential model renders as
first in list order (the spec leaves the choice unspecified). -/
def mapCollect {α β : Type} (f : α → Outcome β) : List α → Outcome (List β)
  | [] => .ok []
  | x :: xs =>
    match f x with
    | .panicked => .panicked
    | .fail e => .fail e
    | .ok b =>
      match mapCollect f xs with
      | .panicked => .panicked
      | .fail e => .fail e
      | .ok bs => .ok (b :: bs)

/-- `iter.collect::<Option<Vec<_>>>()`. -/
def collectOption {α : Type} : List (Option α) → Option (List α)
  | [] => some []
  | none :: _ => none
  | some a :: rest => (collectOption rest).map (a :: ·)

/-! ### Rust byte strings

`str::split_at(mid)` splits at a byte offset and panics when `mid` is not
a character boundary (in particular when the string is shorter than `mid`
bytes).  A Rust string is viewed as its list of unicode scalar values,
each carrying its UTF-8 byte width `Char.utf8Size`. -/

/-- Total UTF-8 byte length of a string given as a char list. -/
def byteLen (cs : List Char) : Nat := (cs.map Char.utf8Size).sum

/-- `str::is_char_boundary(n)`: `n` is reachable as the exact byte length
of a prefix of the char list. -/
def isCharBoundaryAt : List Char → Nat → Bool
  | _, 0 => true
  | [], _ + 1 => false
  | c :: rest, n + 1 =>
    if c.utf8Size ≤ n + 1 then isCharBoundaryAt rest (n + 1 - c.utf8Size) else false

/-- `str::split_at(n)` : `none` models the panic on a non-boundary offset. -/
def splitAtByte : List Char → Nat → Option (List Char × List Char)
  | cs, 0 => some ([], cs)
  | [], _ + 1 => none
  | c :: rest, n + 1 =>
    if c.utf8Size ≤ n + 1 then
      (splitAtByte rest (n + 1 - c.utf8Size)).map (fun p => (c :: p.1, p.2))
    else none

/-! ### Whitespace and run splitting

`str::split_whitespace` (and the alphanumeric splitting of the tantivy
`SimpleTokenizer`): maximal runs of characters satisfying `keep`. -/

def splitRuns (keep : Char → Bool) : List Char → List Char → List (List Char)
  | acc, [] => if acc.isEmpty then [] else [acc.reverse]
  | acc, c :: rest =>
    if keep c then splitRuns keep (c :: acc) rest
    else if acc.isEmpty then splitRuns keep [] rest
    else acc.reverse :: splitRuns keep [] rest

/-- `str::split_whitespace` as a list of strings. -/
def words (s : String) : List String :=
  (splitRuns (fun c => !c.isWhitespace) [] s.data).map String.mk

/-- `str::split(sep)` for a one-char pattern: splits at every separator,
keeping empty pieces (Rust semantics). -/
def splitKeepEmpty (sep : Char) : List Char → List Char → List (List Char)
  | acc, [] => [acc.reverse]
  | acc, c :: rest =>
    if c == sep then acc.reverse :: splitKeepEmpty sep [] rest
    else splitKeepEmpty sep (c :: acc) rest

/-- `str::trim`: strip unicode whitespace from both ends. -/
def rustTrim (s : String) : String :=
  String.mk
    (((s.data.dropWhile Char.isWhitespace).reverse.dropWhile
      Char.isWhitespace).reverse)

/-! ### HTML document model (the `select` crate as used by the code)

A fetched page (`select::document::Document`) is a tree of element and
text nodes.  The predicates embedded below are exactly the combinators the
source uses: `Name`, `Attr(key, value)`, `Class`, `Text`, `And`,
`Predicate::child` and `Predicate::descendant`.  `child`/`descendant`
constraints look upward, so every node is handled together with its list
of ancestors (nearest first). -/

inductive Node where
  | elem : String → List (String × String) → List Node → Node
  | text : String → Node

/-- Selector predicates of the `select` crate used in `uwin.rs`.
`a.child(b)` accepts nodes matching `b` whose parent matches `a`;
`a.descendant(b)` accepts nodes matching `b` with some strict ancestor
matching `a`. -/
inductive Sel where
  | name : String → Sel
  | attr : String → String → Sel
  | cls : String → Sel
  | text : Sel
  | and : Sel → Sel → Sel
  | child : Sel → Sel → Sel
  | descendant : Sel → Sel → Sel

/-- A node paired with its ancestor chain, nearest ancestor first. -/
abbrev NodeRef := Node × List Node

/-- `b || f applied somewhere along the ancestor chain`: helper for the
`descendant` combinator (some strict ancestor satisfies `f`). -/
def anyAncestor (f : List Node → Node → Bool) : List Node → Bool
  | [] => false
  | a :: rest => f rest a || anyAncestor f rest

/-- Compile a selector to its matching function on a node with its
ancestor chain. -/
def selMatches (p : Sel) : List Node → Node → Bool :=
  match p with
  | .name s => fun _ n =>
    match n with
    | .elem nm _ _ => nm == s
    | .text _ => false
  | .attr k v => fun _ n =>
    match n with
    | .elem _ attrs _ => attrs.any (fun a => a.1 == k && a.2 == v)
    | .text _ => false
  | .cls c => fun _ n =>
    match n with
    | .elem _ attrs _ =>
      match attrs.find? (fun a => a.1 == "class") with
      | some a => (words a.2).contains c
      | none => false
    | .text _ => false
  | .text => fun _ n =>
    match n with
    | .elem _ _ _ => false
    | .text _ => true
  | .and p q =>
    let fp := selMatches p
    let fq := selMatches q
    fun anc n => fp anc n && fq anc n
  | .child p q =>
    let fp := selMatches p
    let fq := selMatches q
    fun anc n =>
      fq anc n &&
        (match anc with
         | parent :: rest => fp rest parent
         | [] => false)
  | .descendant p q =>
    let fp := selMatches p
    let fq := selMatches q
    fun anc n => fq anc n && anyAncestor fp anc

mutual

/-- Pre-order listing of a node and all its descendants, each with its
ancestor chain (the iteration order of `select`). -/
def nodesWithAnc (n : Node) (anc : List Node) : List NodeRef :=
  match n with
  | .elem _ _ children => (n, anc) :: nodesList children (n :: anc)
  | .text _ => [(n, anc)]

def nodesList (ns : List Node) (anc : List Node) : List NodeRef :=
  match ns with
  | [] => []
  | n :: rest => nodesWithAnc n anc ++ nodesList rest anc

end

/-- `Document::find(p)`: all nodes of the page matching `p`, in document
order. -/
def Doc.findAll (doc : Node) (p : Sel) : List NodeRef :=
  (nodesWithAnc doc []).filter (fun r => selMatches p r.2 r.1)

/-- `Node::children()`. -/
def NodeRef.childrenRefs (r : NodeRef) : List NodeRef :=
  match r.1 with
  | .elem _ _ ch => ch.map (fun c => (c, r.1 :: r.2))
  | .text _ => []

/-- `Node::find(p)`: matching strict descendants of the node, in document
order, with their true ancestor chains. -/
def NodeRef.findD (r : NodeRef) (p : Sel) : List NodeRef :=
  (match r.1 with
   | .elem _ _ ch => nodesList ch (r.1 :: r.2)
   | .text _ => []).filter (fun x => selMatches p x.2 x.1)

/-- `Node::is(p)`. -/
def NodeRef.is (r : NodeRef) (p : Sel) : Bool :=
  selMatches p r.2 r.1

/-- `Node::attr(key)`. -/
def NodeRef.attr (r : NodeRef) (k : String) : Option String :=
  match r.1 with
  | .elem _ attrs _ => (attrs.find? (fun a => a.1 == k)).map (fun a => a.2)
  | .text _ => none

/-- `Node::as_text()`. -/
def NodeRef.asText (r : NodeRef) : Option String :=
  match r.1 with
  | .text s => some s
  | .elem _ _ _ => none

/-- The repeated source idiom
`.find(Text).flat_map(|n| n.as_text()).flat_map(str::split_whitespace).join(" ")`
applied to an already collected node list. -/
def collectText (rs : List NodeRef) : String :=
  String.intercalate " " ((rs.filterMap NodeRef.asText).flatMap words)

/-- Whitespace-normalized text of all text descendants of a node. -/
def innerText (r : NodeRef) : String :=
  collectText (r.findD .text)

/-! ### Portal requests

The request shapes issued by `Scraper` (each is a GET/POST against
`SEARCH_URL` with `BASE_QUERY` plus the shape parameters shown in the
source; only the distinguishing parameters are retained). -/

inductive Request where
  | termList : Request
  | courseList : String → Request
  | courseDetails : String → String → String → Request
  | courseDetailsInstructors : String → String → String → Request
deriving DecidableEq, Repr

/-- The two request shapes of `scrape_full` (the detail page and the
instructor page of one course). -/
def Request.isDetailCall : Request → Bool
  | .courseDetails _ _ _ => true
  | .courseDetailsInstructors _ _ _ => true
  | _ => false

/-- The transport capability (`reqwest::Client` + `.send()` + `.text()`):
a raw document or a transport error message. -/
abbrev Fetch := Request → Except String Node

def tabsDetailsId : String :=
  "_uwinregistrationcoursesearch_WAR_uwinregistrationtoolsportlet_tabs-details"

def tabsPrereqsId : String :=
  "_uwinregistrationcoursesearch_WAR_uwinregistrationtoolsportlet_tabs-prerequistes"

def tabsExamsId : String :=
  "_uwinregistrationcoursesearch_WAR_uwinregistrationtoolsportlet_tabs-exams"

def courseResultsId : String :=
  "_uwinregistrationcoursesearch_WAR_uwinregistrationtoolsportlet_CourseResults"

/-! ### Data model (`uwin.rs`) -/

/-- Instructor information. -/
structure Instructor where
  name : String
  title : Option String
  department : Option String
  phone : Option String
  email : Option String
deriving DecidableEq, Repr

def directoryServices : String :=
  "http://apps.uwindsor.ca/uwincpb/jsp/DirectoryServicesProfile.jsp?q="

/-- `Instructor::directory_url`. -/
def Instructor.directory_url (i : Instructor) : Option String :=
  (i.email.map (fun e => String.mk (e.data.takeWhile (fun c => c != '@')))).map
    (fun id => directoryServices ++ id)

/-- Exam information. -/
structure Exam where
  ty : String
  slot : Option String
  date : Option String
  time : Option String
  building : Option String
  room : Option String
  area : Option String
deriving DecidableEq, Repr

/-- Full course information. -/
structure Course where
  code : String
  title : String
  meets : String
  starts : String
  ends : String
  campus : String
  availability : String
  course_value : String
  date_drops_close : String
  description : String
  note : Option String
  prereqs : List String
  exams : List Exam
  instructors : List Instructor
deriving DecidableEq, Repr

/-! ### Extraction helpers shared by `scrape_basic` and `scrape_full`

Each helper is one `doc.find(...)` expression of the source. -/

/-- `doc.find(Name("body").child(Name("h1"))).next()`. -/
def findTitle (doc : Node) : Option NodeRef :=
  (Doc.findAll doc (.child (.name "body") (.name "h1"))).head?

/-- `doc.find(Attr("id", "..._tabs-details")).next()`. -/
def findDetails (doc : Node) : Option NodeRef :=
  (Doc.findAll doc (.attr "id" tabsDetailsId)).head?

/-- `details.children().filter(|n| n.is(Name("div"))).next()`:
the first `div` child of the details container carries the meets
schedule. -/
def findMeets (details : NodeRef) : Option NodeRef :=
  (details.childrenRefs.filter (fun n => n.is (.name "div"))).head?

/-- `.find(Name("p").descendant(Text))` joined: the long description. -/
def detailsDescription (details : NodeRef) : String :=
  collectText (details.findD (.descendant (.name "p") .text))

/-- The closure `f` of `scrape_full`:
`details.find(Name("div").descendant(Attr("id", id))).next().map(innerText)`. -/
def fId (details : NodeRef) (id : String) : Option String :=
  ((details.findD (.descendant (.name "div") (.attr "id" id))).head?).map innerText

/-! ### `Scraper::scrape_basic` -/

/-- `Scraper::scrape_basic(term, full_code)`: title and description for one
course code, used to build the initial search index.  The code starts with
`full_code.split_at(7)`, which panics off a character boundary. -/
def Scraper.scrape_basic (fetch : Fetch) (term full_code : String) :
    Outcome (String × String) :=
  match splitAtByte full_code.data 7 with
  | none => .panicked
  | some (code, sec) =>
    match fetch (.courseDetails term (String.mk code) (String.mk sec)) with
    | .error m => .fail (.transport m)
    | .ok doc =>
      match findTitle doc with
      | none => .fail (.parse "course title")
      | some titleNode =>
        match findDetails doc with
        | none => .fail (.parse "course details")
        | some details =>
          .ok (innerText titleNode, detailsDescription details)

/-! ### `Scraper::scrape_full` -/

/-- The fields extracted from the main detail page by `scrape_full`,
in source order. -/
structure MainDetail where
  title : String
  meets : String
  starts : String
  ends : String
  campus : String
  availability : String
  course_value : String
  date_drops_close : String
  note : Option String
  description : String
  prereqs : List String
  exams : List Exam
deriving DecidableEq, Repr

/-- One `tr` row of the exams table: the column iterator
`node.find(Name("td").descendant(Text)).flat_map(as_text).map(trim)`
consumed positionally; a row with no first column makes the whole exam
extraction fail. -/
def examOfRow (r : NodeRef) : Option Exam :=
  let columns := ((r.findD (.descendant (.name "td") .text)).filterMap
    NodeRef.asText).map rustTrim
  columns.head?.map (fun ty =>
    ⟨ty, columns[1]?, columns[2]?, columns[3]?, columns[4]?, columns[5]?,
      columns[6]?⟩)

/-- The extraction performed by `scrape_full` on the main detail page
(source order: title, details container, meets, the six `f(id)` fields,
note, description, prereqs, exams). -/
def extractMain (doc : Node) : Outcome MainDetail :=
  match findTitle doc with
  | none => .fail (.parse "course title")
  | some titleNode =>
    match findDetails doc with
    | none => .fail (.parse "course details")
    | some details =>
      match findMeets details with
      | none => .fail (.parse "meets")
      | some meetsNode =>
        match fId details "dateSessionStartsFormatted" with
        | none => .fail (.parse "starts")
        | some starts =>
          match fId details "dateSessionEndsFormatted" with
          | none => .fail (.parse "ends")
          | some ends =>
            match fId details "courseSectionInfo_campus" with
            | none => .fail (.parse "campus")
            | some campus =>
              match fId details "courseSectionInfo_sectionAvailability" with
              | none => .fail (.parse "availability")
              | some availability =>
                match fId details "courseSectionInfo_courseValue" with
                | none => .fail (.parse "course_value")
                | some course_value =>
                  match fId details "dateDropsCloseFormatted" with
                  | none => .fail (.parse "date_drops_close")
                  | some date_drops_close =>
                    let note := ((details.findD
                      (.and (.name "p") (.cls "uwinNoteText"))).head?).map
                        innerText
                    match findDetails doc with
                    | none => .fail (.parse "course details")
                    | some details2 =>
                      let description := detailsDescription details2
                      let prereqs := (Doc.findAll doc
                        (.child (.child (.attr "id" tabsPrereqsId)
                          (.name "ul")) (.name "li"))).map innerText
                      let examRows := (Doc.findAll doc
                        (.descendant (.attr "id" tabsExamsId)
                          (.name "tr"))).drop 1
                      match collectOption (examRows.map examOfRow) with
                      | none => .fail (.parse "course exam")
                      | some exams =>
                        .ok ⟨innerText titleNode, innerText meetsNode,
                          starts, ends, campus, availability, course_value,
                          date_drops_close, note, description, prereqs,
                          exams⟩

/-- One `li` of the instructor list view. -/
def instructorOfLi (li : NodeRef) : Outcome Instructor :=
  match ((li.findD (.name "b")).head?).map innerText with
  | none => .fail (.parse "instructor name")
  | some name =>
    let info := (li.findD (.child (.name "div") (.cls "wwctrl"))).map innerText
    .ok ⟨name, info[0]?, info[1]?, info[2]?, info[3]?⟩

/-- The extraction performed by `scrape_full` on the instructor page. -/
def extractInstructors (doc : Node) : Outcome (List Instructor) :=
  match (Doc.findAll doc (.and (.name "ul") (.cls "uwinListView"))).head? with
  | none => .fail (.parse "course instructors")
  | some ul =>
    mapCollect instructorOfLi
      (ul.childrenRefs.filter (fun n => n.is (.name "li")))

/-- `Scraper::scrape_full(term, full_code)`: the on-demand full-detail
scrape.  The second component is the trace of portal requests issued, in
order.  The source performs exactly two portal calls: the main detail
page, then the instructor page. -/
def Scraper.scrape_full (fetch : Fetch) (term full_code : String) :
    Outcome Course × List Request :=
  match splitAtByte full_code.data 7 with
  | none => (.panicked, [])
  | some (code, sec) =>
    let req1 := Request.courseDetails term (String.mk code) (String.mk sec)
    match fetch req1 with
    | .error m => (.fail (.transport m), [req1])
    | .ok doc =>
      match extractMain doc with
      | .panicked => (.panicked, [req1])
      | .fail e => (.fail e, [req1])
      | .ok main =>
        let req2 := Request.courseDetailsInstructors term (String.mk code)
          (String.mk sec)
        match fetch req2 with
        | .error m => (.fail (.transport m), [req1, req2])
        | .ok doc2 =>
          match extractInstructors doc2 with
          | .panicked => (.panicked, [req1, req2])
          | .fail e => (.fail e, [req1, req2])
          | .ok instructors =>
            (.ok ⟨full_code, main.title, main.meets, main.starts, main.ends,
              main.campus, main.availability, main.course_value,
              main.date_drops_close, main.description, main.note,
              main.prereqs, main.exams, instructors⟩, [req1, req2])

/-! ### `Scraper::scrape_courses` and `Scraper::scrape` -/

/-- `doc.find(Attr("id", "..._CourseResults").child(Name("table")).child(Name("tbody"))).next()`. -/
def courseResultsBody (doc : Node) : Option NodeRef :=
  (Doc.findAll doc (.child (.child (.attr "id" courseResultsId)
    (.name "table")) (.name "tbody"))).head?

/-- Extraction of one course code from a `tr` row of the course list:
the text of the first `td`, whitespace-split, each piece split on `"-"`,
concatenated; an absent `td` or an empty result is
`ParseError("course code")`. -/
def rowCode (row : NodeRef) : Outcome String :=
  match (row.childrenRefs.filter (fun n => n.is (.name "td"))).head? with
  | none => .fail (.parse "course code")
  | some td =>
    let code := String.join
      ((((td.findD .text).filterMap NodeRef.asText).flatMap words).flatMap
        (fun w => (splitKeepEmpty '-' [] w.data).map String.mk))
    if code = "" then .fail (.parse "course code") else .ok code

/-- A corpus row for one course of one term. -/
abbrev CourseRow := String × String × String

/-- `Scraper::scrape_courses(term)`: fetch the course list of a term,
extract every row code, then run `scrape_basic` over all codes (in
parallel over a `rayon` pool in the source) and collect, failing the whole
term on the first failed course. -/
def Scraper.scrape_courses (fetch : Fetch) (term : String) :
    Outcome (List CourseRow) :=
  match fetch (.courseList term) with
  | .error m => .fail (.transport m)
  | .ok doc =>
    match courseResultsBody doc with
    | none => .fail (.parse "course list")
    | some tbody =>
      (mapCollect rowCode
        (tbody.childrenRefs.filter (fun n => n.is (.name "tr")))).bind
        (fun codes => mapCollect
          (fun code => (Scraper.scrape_basic fetch term code).map
            (fun td => (code, td.1, td.2)))
          codes)

/-- `doc.find(And(Name("select"), Attr("id", "ExecuteCourseSearch_acadtermCode"))).next()`. -/
def acadTermSelect (doc : Node) : Option NodeRef :=
  (Doc.findAll doc (.and (.name "select")
    (.attr "id" "ExecuteCourseSearch_acadtermCode"))).head?

/-- The body of the per-`option` closure of `Scraper::scrape`: value
attribute, then the courses of that term, then the non-empty display-name
check, in source order. -/
def termEntry (fetch : Fetch) (node : NodeRef) :
    Outcome (String × List CourseRow) :=
  match node.attr "value" with
  | none => .fail (.parse "term code value")
  | some code =>
    match Scraper.scrape_courses fetch code with
    | .panicked => .panicked
    | .fail e => .fail e
    | .ok courses =>
      let name := collectText (node.findD .text)
      if name = "" then .fail (.parse "term code name")
      else .ok (code, courses)

/-- `Scraper::scrape()`: the full corpus build over all terms
(`BuildCorpus` of the spec). -/
def Scraper.scrape (fetch : Fetch) : Outcome (List (String × List CourseRow)) :=
  match fetch .termList with
  | .error m => .fail (.transport m)
  | .ok doc =>
    match acadTermSelect doc with
    | none => .fail (.parse "term code list")
    | some sel =>
      mapCollect (termEntry fetch)
        (sel.childrenRefs.filter (fun n => n.is (.name "option")))

/-! ### The search index (`CourseIndex`, tantivy schema and query)

The tantivy engine itself is external; its schema configuration and the
query composition are the code under verification.  A committed document
is an `IndexedDoc`; the query parser and the relevance scorer of the
engine enter as parameters. -/

/-- One indexed document: the four text fields added in
`CourseIndex::open`. -/
structure IndexedDoc where
  term : String
  code : String
  title : String
  description : String
deriving DecidableEq, Repr

/-- `CoursePreview` (the `scraper` back-reference of the source struct is
the ambient scraping capability and carries no data). -/
structure CoursePreview where
  term : String
  code : String
  title : String
deriving DecidableEq, Repr

/-- Text field options of the tantivy schema builder as configured by
`CourseIndex::open` (tokenizer name, stored flag, index record option). -/
structure TextFieldOptions where
  tokenizer : String
  stored : Bool
  indexOption : String
deriving DecidableEq, Repr

/-- `STRING | STORED`: the raw (untokenized, exact-match) tokenizer,
stored. -/
def termOptions : TextFieldOptions := ⟨"raw", true, "Basic"⟩

/-- The `ngram` `TextOptions` built in `CourseIndex::open`: tokenizer
"ngram", `WithFreqsAndPositions`, stored. -/
def ngramOptions : TextFieldOptions := ⟨"ngram", true, "WithFreqsAndPositions"⟩

/-- `TEXT`: the default word tokenizer, positions indexed, not stored. -/
def textOptions : TextFieldOptions := ⟨"default", false, "WithFreqsAndPositions"⟩

/-- The schema built by `CourseIndex::open`, field declaration order
preserved. -/
def courseSchema : List (String × TextFieldOptions) :=
  [("term", termOptions), ("code", ngramOptions), ("title", ngramOptions),
   ("description", textOptions)]

def schemaTokenizer (field : String) : Option String :=
  (courseSchema.find? (fun f => f.1 == field)).map (fun f => f.2.tokenizer)

/-- `NgramTokenizer::new(3, 3, false)`: all contiguous 3-char windows. -/
def windows3 : List Char → List (List Char)
  | a :: b :: c :: rest => [a, b, c] :: windows3 (b :: c :: rest)
  | _ => []

/-- The tokenizer registered under the name "ngram":
`NgramTokenizer::new(3, 3, false)` then `RemoveLongFilter::limit(40)`
(drop tokens of 40 bytes or more) then `LowerCaser`. -/
def registeredNgram (s : String) : List String :=
  ((windows3 s.data).filter (fun t => t.length < 40)).map
    (fun t => String.mk (t.map Char.toLower))

/-- The tantivy `SimpleTokenizer` underlying the `TEXT` default pipeline:
maximal alphanumeric runs. -/
def simpleTokens (s : String) : List (List Char) :=
  splitRuns Char.isAlphanum [] s.data

/-- The "default" tokenizer used for the `description` field:
`SimpleTokenizer` then `RemoveLongFilter::limit(40)` then `LowerCaser`. -/
def defaultTokenizer (s : String) : List String :=
  ((simpleTokens s).filter (fun t => t.length < 40)).map
    (fun t => String.mk (t.map Char.toLower))

/-- The search index handle: the committed snapshot. -/
structure CourseIndex where
  corpus : List IndexedDoc
deriving DecidableEq, Repr

/-- Sort of the matching documents by descending engine score
(`TopCollector` keeps the highest-scoring documents). -/
def insertByScore (score : IndexedDoc → Nat) (d : IndexedDoc) :
    List IndexedDoc → List IndexedDoc
  | [] => [d]
  | x :: xs =>
    if score x ≤ score d then d :: x :: xs else x :: insertByScore score d xs

def sortByScore (score : IndexedDoc → Nat) : List IndexedDoc → List IndexedDoc
  | [] => []
  | x :: xs => insertByScore score x (sortByScore score xs)

/-- `CourseIndex::query(term, query)`.  `parse` is
`QueryParser::for_index(...).parse_query` over the default fields
`[code, title, description]`: it yields the match semantics of the user
query or a `QueryParserError` (a message here); the source wraps that
error as `QueryError` before `?`.  The term filter is a `TermQuery` for
exact equality on the `term` field, conjoined as `Occur::Must` with the
user query in a `BooleanQuery`; `TopCollector::with_limit(10)` keeps the
ten highest-scoring hits (`score` is the relevance scorer of the
engine). -/
def CourseIndex.query (idx : CourseIndex)
    (parse : String → Except String (IndexedDoc → Bool))
    (score : IndexedDoc → Nat) (term q : String) :
    Except Err (List CoursePreview) :=
  match parse q with
  | .error e => .error (.query e)
  | .ok userMatch =>
    let matching := idx.corpus.filter (fun d => userMatch d && d.term == term)
    let top := (sortByScore score matching).take 10
    .ok (top.map (fun d => ⟨d.term, d.code, d.title⟩))

/-! ### `CourseIndex::open` -/

/-- Observable build effects of `CourseIndex::open`: whether the corpus
scrape ran, which documents were handed to the index writer, and whether
the writer committed. -/
structure OpenTrace where
  scraped : Bool
  docsAdded : List IndexedDoc
  committed : Bool
deriving DecidableEq, Repr

/-- The corpus tuples flattened into indexed documents, in the add order
of the source loops. -/
def corpusDocs (data : List (String × List CourseRow)) : List IndexedDoc :=
  data.flatMap (fun td => td.2.map (fun ctd => ⟨td.1, ctd.1, ctd.2.1, ctd.2.2⟩))

/-- `CourseIndex::open()`.  `dirExists` is `Path::new("./index").is_dir()`,
`persisted` is the content of an existing on-disk index.  When the
directory exists the index is opened in place with no scraping and no
writes; otherwise the full corpus is scraped, every tuple is added and the
writer commits.  (Index storage I/O, always fatal via `?` on failure, is
abstracted as succeeding; no claim concerns it.) -/
def CourseIndex.open' (dirExists : Bool) (persisted : List IndexedDoc)
    (fetch : Fetch) : Outcome CourseIndex × OpenTrace :=
  if dirExists then
    (.ok ⟨persisted⟩, ⟨false, [], false⟩)
  else
    match Scraper.scrape fetch with
    | .panicked => (.panicked, ⟨true, [], false⟩)
    | .fail e => (.fail e, ⟨true, [], false⟩)
    | .ok data =>
      (.ok ⟨corpusDocs data⟩, ⟨true, corpusDocs data, true⟩)

/-! ### The reindex handler (`Handler::reindex` in `main.rs`)

The active-index slot is the `typemap` entry for `CourseIndex` in the
shared client data; `data.remove::<CourseIndex>()` empties it and returns
the previous occupant.  A `none` occupant means a rebuild is already in
flight.  The effects recorded are those of the call including its spawned
rebuild thread: whether `fs::remove_dir_all("./index")` ran and whether a
rebuild was started; `messages` is everything sent back to the chat
channel (the handler sends nothing), and the final component is the
returned `Result<(), Error>`. -/

structure BotState where
  activeIndex : Option CourseIndex
  indexDirExists : Bool
deriving DecidableEq, Repr

structure ReindexEffect where
  buildStarted : Bool
  storageRemoved : Bool
  messages : List String
deriving DecidableEq, Repr

def Handler.reindex (isAdmin : Bool) (st : BotState) :
    BotState × ReindexEffect × Except String Unit :=
  if isAdmin then
    match st.activeIndex with
    | none => (st, ⟨false, false, []⟩, .ok ())
    | some _ =>
      ({ activeIndex := none, indexDirExists := false },
        ⟨true, true, []⟩, .ok ())
  else (st, ⟨false, false, []⟩, .ok ())

/-! ### Concrete portal instances

Small concrete pages and transports used to evaluate the embedded code at
explicit inputs. -/

/-- A term-list page with one term option `20185` named "Fall 2018". -/
def optionNode : Node := .elem "option" [("value", "20185")] [.text "Fall 2018"]

def selectNode : Node :=
  .elem "select" [("id", "ExecuteCourseSearch_acadtermCode")] [optionNode]

def termBody : Node := .elem "body" [] [selectNode]

def termListDoc : Node := .elem "html" [] [termBody]

/-- A course-list page with a single row whose first cell reads
`0110-601 001` (extracted course code `0110601001`). -/
def trNode : Node := .elem "tr" [] [.elem "td" [] [.text "0110-601 001"]]

def tbodyNode : Node := .elem "tbody" [] [trNode]

def tableNode : Node := .elem "table" [] [tbodyNode]

def resultsDiv : Node := .elem "div" [("id", courseResultsId)] [tableNode]

def courseBody : Node := .elem "body" [] [resultsDiv]

def courseListDoc : Node := .elem "html" [] [courseBody]

/-- A fully populated course detail page. -/
def detailsDiv : Node :=
  .elem "div" [("id", tabsDetailsId)]
    [ .elem "div" [] [.text "MWF 10:30 AM - 11:20 AM"]
    , .elem "div" [("id", "dateSessionStartsFormatted")] [.text "Sep 6"]
    , .elem "div" [("id", "dateSessionEndsFormatted")] [.text "Dec 5"]
    , .elem "div" [("id", "courseSectionInfo_campus")] [.text "Main Campus"]
    , .elem "div" [("id", "courseSectionInfo_sectionAvailability")]
        [.text "12 of 80"]
    , .elem "div" [("id", "courseSectionInfo_courseValue")] [.text "3.00"]
    , .elem "div" [("id", "dateDropsCloseFormatted")] [.text "Nov 14"]
    , .elem "p" [] [.text "A course about proofs."] ]

def happyDetailsDoc : Node :=
  .elem "html" []
    [.elem "body" [] [.elem "h1" [] [.text "Intro to Proofs"], detailsDiv]]

/-- An instructor page with an empty `uwinListView` list. -/
def instructorsDoc : Node :=
  .elem "html" [] [.elem "body" [] [.elem "ul" [("class", "uwinListView")] []]]

/-- A detail page carrying the portal error marker instead of the expected
course layout: no `body > h1` title element is present. -/
def errMarkerDoc : Node :=
  .elem "html" []
    [.elem "body" []
      [.elem "div" [("class", "portlet-msg-error")]
        [.text "The requested course does not exist."]]]

/-- A details container with no `div` child: the meets schedule cannot be
resolved from it. -/
def noMeetsDetails : Node :=
  .elem "div" [("id", tabsDetailsId)]
    [.elem "p" [] [.text "A course about proofs."]]

def noMeetsBody : Node :=
  .elem "body" [] [.elem "h1" [] [.text "Intro to Proofs"], noMeetsDetails]

/-- A detail page whose details container has no `div` child. -/
def noMeetsDoc : Node := .elem "html" [] [noMeetsBody]

/-- A portal answering every request with the happy-path pages above. -/
def fetchAll : Fetch
  | .termList => .ok termListDoc
  | .courseList _ => .ok courseListDoc
  | .courseDetails _ _ _ => .ok happyDetailsDoc
  | .courseDetailsInstructors _ _ _ => .ok instructorsDoc

/-- A portal whose course detail page carries the error marker. -/
def fetchErrMarker : Fetch
  | .courseDetails _ _ _ => .ok errMarkerDoc
  | _ => .error "unexpected request"

/-- A portal whose course detail page has no meets `div`. -/
def fetchNoMeets : Fetch
  | .courseDetails _ _ _ => .ok noMeetsDoc
  | .courseDetailsInstructors _ _ _ => .ok instructorsDoc
  | _ => .error "unexpected request"

/-- A portal that serves the term and course lists but fails with a
transport error on every course detail request, so every basic scrape
fails. -/
def fetchFailBasic : Fetch
  | .termList => .ok termListDoc
  | .courseList _ => .ok courseListDoc
  | _ => .error "connection refused"

/-- A dead network. -/
def fetchDown : Fetch := fun _ => .error "connection refused"

/-- A query parser accepting everything (every document matches). -/
def parseAny : String → Except String (IndexedDoc → Bool) :=
  fun _ => .ok (fun _ => true)

/-- A query parser rejecting everything with a syntax error. -/
def parseReject : String → Except String (IndexedDoc → Bool) :=
  fun _ => .error "unbalanced parenthesis"

/-- A constant relevance scorer. -/
def scoreConst : IndexedDoc → Nat := fun _ => 1

/-- Twelve indexed documents of one term: more matches than the collector
limit. -/
def bigCorpus : List IndexedDoc :=
  (List.range 12).map
    (fun i => ⟨"20185", "0110" ++ toString (600 + i) ++ "001",
      "Course " ++ toString i, "About topic " ++ toString i⟩)

/-- A two-term corpus. -/
def twoTermCorpus : List IndexedDoc :=
  [⟨"20185", "0110601001", "Graph Theory", "graphs"⟩,
   ⟨"20191", "0110602001", "Graph Algorithms", "graphs"⟩]

/-- The previews the query over `bigCorpus` returns (first ten corpus
documents in order, since all scores are equal). -/
def c4ps : List CoursePreview :=
  (bigCorpus.take 10).map (fun d => ⟨d.term, d.code, d.title⟩)

/-! ## Helper lemmas -/

theorem splitAtByte_isSome_iff_boundary (cs : List Char) (n : Nat) :
    (splitAtByte cs n).isSome = isCharBoundaryAt cs n := by
  induction cs generalizing n with
  | nil => cases n <;> simp [splitAtByte, isCharBoundaryAt]
  | cons c rest ih =>
    cases n with
    | zero => simp [splitAtByte, isCharBoundaryAt]
    | succ m =>
      simp only [splitAtByte, isCharBoundaryAt]
      split
      · simp [Option.isSome_map, ih]
      · simp

theorem not_boundary_of_byteLen_lt (cs : List Char) (n : Nat)
    (h : byteLen cs < n) : isCharBoundaryAt cs n = false := by
  induction cs generalizing n with
  | nil =>
    cases n with
    | zero => simp [byteLen] at h
    | succ m => simp [isCharBoundaryAt]
  | cons c rest ih =>
    cases n with
    | zero => simp at h
    | succ m =>
      simp only [isCharBoundaryAt]
      split
      · apply ih
        have hsz : byteLen (c :: rest) = c.utf8Size + byteLen rest := by
          simp [byteLen]
        omega
      · rfl

theorem splitRuns_tokens (keep : Char → Bool) (cs : List Char) :
    ∀ acc, acc.all keep → ∀ t ∈ splitRuns keep acc cs, t ≠ [] ∧ t.all keep := by
  induction cs with
  | nil =>
    intro acc hacc t ht
    simp only [splitRuns] at ht
    split at ht
    · simp at ht
    · rename_i hne
      simp only [List.mem_singleton] at ht
      subst ht
      refine ⟨?_, by simpa using hacc⟩
      intro habs
      have : acc = [] := by simpa using congrArg List.reverse habs
      simp [this] at hne
  | cons c rest ih =>
    intro acc hacc t ht
    simp only [splitRuns] at ht
    split at ht
    · rename_i hk
      exact ih (c :: acc) (by simp [List.all_cons, hk, hacc]) t ht
    · split at ht
      · exact ih [] (by simp) t ht
      · rename_i hne
        rcases List.mem_cons.mp ht with h | h
        · subst h
          refine ⟨?_, by simpa using hacc⟩
          intro habs
          have : acc = [] := by simpa using congrArg List.reverse habs
          simp [this] at hne
        · exact ih [] (by simp) t h


theorem Outcome.isOk_map {α β : Type} (f : α → β) (o : Outcome α) :
    (o.map f).isOk = o.isOk := by
  cases o <;> rfl

theorem mapCollect_not_ok_of_mem {α β : Type} (f : α → Outcome β)
    {l : List α} {x : α} (hx : x ∈ l) (hfx : (f x).isOk = false) :
    (mapCollect f l).isOk = false := by
  induction l with
  | nil => cases hx
  | cons a rest ih =>
    simp only [mapCollect]
    rcases List.mem_cons.mp hx with h | h
    · subst h
      cases hfa : f x <;> simp_all [Outcome.isOk]
    · cases hfa : f a <;> try rfl
      cases hrest : mapCollect f rest <;> simp_all [Outcome.isOk]

theorem mapCollect_ne_panicked {α β : Type} (f : α → Outcome β) (l : List α)
    (h : ∀ a ∈ l, f a ≠ .panicked) : mapCollect f l ≠ .panicked := by
  induction l with
  | nil => simp [mapCollect]
  | cons a rest ih =>
    simp only [mapCollect]
    cases hfa : f a
    · exact absurd hfa (h a (by simp))
    · simp
    · cases hrest : mapCollect f rest
      · exact absurd hrest (ih (fun b hb => h b (by simp [hb])))
      · simp
      · simp

theorem extractMain_ne_panicked (doc : Node) : extractMain doc ≠ .panicked := by
  unfold extractMain
  repeat' split
  all_goals try simp
  split <;> simp

theorem instructorOfLi_ne_panicked (li : NodeRef) :
    instructorOfLi li ≠ .panicked := by
  unfold instructorOfLi
  split <;> simp

theorem extractInstructors_ne_panicked (doc : Node) :
    extractInstructors doc ≠ .panicked := by
  unfold extractInstructors
  split
  · simp
  · exact mapCollect_ne_panicked _ _ (fun a _ => instructorOfLi_ne_panicked a)

theorem mem_insertByScore (score : IndexedDoc → Nat) (d x : IndexedDoc)
    (l : List IndexedDoc) :
    x ∈ insertByScore score d l ↔ x = d ∨ x ∈ l := by
  induction l with
  | nil => simp [insertByScore]
  | cons a rest ih =>
    simp only [insertByScore]
    split
    · simp [List.mem_cons]
    · simp only [List.mem_cons, ih]
      tauto

theorem mem_sortByScore (score : IndexedDoc → Nat) (l : List IndexedDoc)
    (x : IndexedDoc) : x ∈ sortByScore score l ↔ x ∈ l := by
  induction l with
  | nil => simp [sortByScore]
  | cons a rest ih =>
    simp only [sortByScore, mem_insertByScore, ih, List.mem_cons]

theorem windows3_mem_length (cs : List Char) :
    ∀ t ∈ windows3 cs, t.length = 3 := by
  induction cs using windows3.induct with
  | case1 a b c rest ih =>
    intro t ht
    rcases List.mem_cons.mp ht with h | h
    · subst h; rfl
    · exact ih t h
  | case2 cs h => simp [windows3, h]

theorem scrape_basic_panicked_iff (fetch : Fetch) (term code : String) :
    (Scraper.scrape_basic fetch term code = .panicked) ↔
      isCharBoundaryAt code.data 7 = false := by
  rw [← splitAtByte_isSome_iff_boundary]
  unfold Scraper.scrape_basic
  cases hs : splitAtByte code.data 7 with
  | none => simp
  | some p =>
    obtain ⟨cs, sec⟩ := p
    repeat' split
    all_goals simp_all

theorem scrape_full_panicked_iff (fetch : Fetch) (term code : String) :
    ((Scraper.scrape_full fetch term code).1 = .panicked) ↔
      isCharBoundaryAt code.data 7 = false := by
  rw [← splitAtByte_isSome_iff_boundary]
  unfold Scraper.scrape_full
  cases hs : splitAtByte code.data 7 with
  | none => simp
  | some p =>
    obtain ⟨cs, sec⟩ := p
    simp only [Option.isSome_some, Bool.true_eq_false, iff_false]
    repeat' split
    all_goals simp_all [extractMain_ne_panicked, extractInstructors_ne_panicked]

/-! ## Claims -/

/-- **C10**: `scrape_basic` and `scrape_full` split the incoming course
code at byte position 7 via `str::split_at(7)`; on a code shorter than 7
bytes, or one whose byte 7 is not a character boundary, this panics rather
than returning an error, and with a boundary at byte 7 neither operation
can panic. -/
theorem scrape_split_at_seven_panics (fetch : Fetch) (term code : String) :
    (byteLen code.data < 7 → isCharBoundaryAt code.data 7 = false) ∧
    (isCharBoundaryAt code.data 7 = false →
      Scraper.scrape_basic fetch term code = .panicked ∧
      (Scraper.scrape_full fetch term code).1 = .panicked) ∧
    (isCharBoundaryAt code.data 7 = true →
      Scraper.scrape_basic fetch term code ≠ .panicked ∧
      (Scraper.scrape_full fetch term code).1 ≠ .panicked) := by
  refine ⟨fun h => not_boundary_of_byteLen_lt _ _ h, fun h => ?_, fun h => ?_⟩
  · exact ⟨(scrape_basic_panicked_iff fetch term code).mpr h,
      (scrape_full_panicked_iff fetch term code).mpr h⟩
  · constructor
    · intro hp
      rw [scrape_basic_panicked_iff] at hp
      simp [h] at hp
    · intro hp
      rw [scrape_full_panicked_iff] at hp
      simp [h] at hp

/-- Witness for C10: the 3-byte code `abc` panics both scrapes, while the
10-byte ASCII code `0110601001` cannot panic (here the transport is down,
so the outcome is a transport failure, not a panic). -/
theorem scrape_split_at_seven_panics_witness :
    Scraper.scrape_basic fetchDown "20185" "abc" = .panicked ∧
    (Scraper.scrape_full fetchDown "20185" "abc").1 = .panicked ∧
    Scraper.scrape_basic fetchDown "20185" "0110601001" ≠ .panicked ∧
    (Scraper.scrape_full fetchDown "20185" "0110601001").1 ≠ .panicked :=
  ⟨((scrape_split_at_seven_panics fetchDown "20185" "abc").2.1 (by decide)).1,
   ((scrape_split_at_seven_panics fetchDown "20185" "abc").2.1 (by decide)).2,
   ((scrape_split_at_seven_panics fetchDown "20185" "0110601001").2.2
     (by decide)).1,
   ((scrape_split_at_seven_panics fetchDown "20185" "0110601001").2.2
     (by decide)).2⟩

/-- Case shape of the request trace of `scrape_full`: empty with a panic
(bad split), or the single main-detail call with a non-success outcome, or
the main-detail call followed by the instructor call. -/
theorem scrape_full_trace_cases (fetch : Fetch) (term code : String) :
    ((Scraper.scrape_full fetch term code).2 = [] ∧
      (Scraper.scrape_full fetch term code).1 = .panicked) ∨
    (∃ cs sec, splitAtByte code.data 7 = some (cs, sec) ∧
      (((Scraper.scrape_full fetch term code).2 =
          [.courseDetails term (String.mk cs) (String.mk sec)] ∧
        (Scraper.scrape_full fetch term code).1.isOk = false) ∨
       (Scraper.scrape_full fetch term code).2 =
         [.courseDetails term (String.mk cs) (String.mk sec),
          .courseDetailsInstructors term (String.mk cs) (String.mk sec)])) := by
  unfold Scraper.scrape_full
  cases hs : splitAtByte code.data 7 with
  | none => exact .inl ⟨rfl, rfl⟩
  | some p =>
    obtain ⟨cs, sec⟩ := p
    refine .inr ⟨cs, sec, rfl, ?_⟩
    dsimp only
    cases hf : fetch (.courseDetails term (String.mk cs) (String.mk sec)) with
    | error m => exact .inl ⟨rfl, rfl⟩
    | ok doc =>
      dsimp only
      cases hem : extractMain doc with
      | panicked => exact .inl ⟨rfl, rfl⟩
      | fail e => exact .inl ⟨rfl, rfl⟩
      | ok main =>
        dsimp only
        cases hf2 : fetch
            (.courseDetailsInstructors term (String.mk cs) (String.mk sec)) with
        | error m => exact .inr rfl
        | ok doc2 =>
          dsimp only
          cases hei : extractInstructors doc2 with
          | panicked => exact .inr rfl
          | fail e => exact .inr rfl
          | ok instructors => exact .inr rfl

/-- **C1 counterexample**: at a concrete portal serving complete pages,
`scrape_full` completes successfully after exactly two portal calls (the
main detail page, then the instructor page).  It never performs a third,
other-sections call, and the meets schedule is not resolved against any
other-sections list. -/
theorem scrape_full_not_three_calls :
    (Scraper.scrape_full fetchAll "20185" "0110601001").2 =
      [Request.courseDetails "20185" "0110601" "001",
       Request.courseDetailsInstructors "20185" "0110601" "001"] ∧
    (Scraper.scrape_full fetchAll "20185" "0110601001").1.isOk = true ∧
    (Scraper.scrape_full fetchAll "20185" "0110601001").2.length ≠ 3 :=
  ⟨rfl, rfl, by decide⟩

/-- **C1 amended**: for every term and course code, `scrape_full` performs
at most two portal calls, both of the detail shapes (main detail page and
instructor page, in that order), with exactly two on success; the "meets"
schedule is resolved from the first `div` child of the details container
of the main detail page, and when that container has no `div` child the
operation fails with the hard extraction error `ParseError("meets")` after
only the first call. -/
theorem scrape_full_two_calls (fetch : Fetch) (term code : String) :
    ((Scraper.scrape_full fetch term code).2.length ≤ 2 ∧
     (Scraper.scrape_full fetch term code).2.all Request.isDetailCall = true ∧
     ((Scraper.scrape_full fetch term code).1.isOk = true →
       (Scraper.scrape_full fetch term code).2.length = 2)) ∧
    (∀ cs sec doc dref,
      splitAtByte code.data 7 = some (cs, sec) →
      fetch (.courseDetails term (String.mk cs) (String.mk sec)) = .ok doc →
      (findTitle doc).isSome = true →
      findDetails doc = some dref →
      findMeets dref = none →
      Scraper.scrape_full fetch term code =
        (.fail (.parse "meets"),
         [.courseDetails term (String.mk cs) (String.mk sec)])) := by
  refine ⟨?_, ?_⟩
  · rcases scrape_full_trace_cases fetch term code with ⟨h2, _⟩ |
      ⟨cs, sec, _, ⟨h2, hno⟩ | h2⟩ <;>
      rw [h2] <;>
      simp_all [Request.isDetailCall, Outcome.isOk]
  · intro cs sec doc dref hsplit hf htitle hdet hmeets
    have hext : extractMain doc = .fail (.parse "meets") := by
      obtain ⟨tn, htn⟩ := Option.isSome_iff_exists.mp htitle
      unfold extractMain
      rw [htn]
      dsimp only
      rw [hdet]
      dsimp only
      rw [hmeets]
    unfold Scraper.scrape_full
    rw [hsplit]
    simp only [hf, hext]

/-- Witness for C1: the no-meets portal instance reaches the
`ParseError("meets")` extraction failure after a single portal call, and
the trace stays within the two-call bound. -/
theorem scrape_full_two_calls_witness :
    (Scraper.scrape_full fetchNoMeets "20185" "0110601001").2.length ≤ 2 ∧
    Scraper.scrape_full fetchNoMeets "20185" "0110601001" =
      (.fail (.parse "meets"), [.courseDetails "20185" "0110601" "001"]) :=
  ⟨(scrape_full_two_calls fetchNoMeets "20185" "0110601001").1.1,
   (scrape_full_two_calls fetchNoMeets "20185" "0110601001").2
     "0110601".data "001".data noMeetsDoc
     (noMeetsDetails, [noMeetsBody, noMeetsDoc]) rfl rfl rfl rfl rfl⟩

/-- **C2 counterexample**: on a portal whose detail page carries the
portal error marker (and therefore no `body > h1` course title),
`scrape_full` reports the extraction error `ParseError("course title")`;
its result is a failure, not an absent ("not found") value — the result
type `Result<Course, Error>` has no absence case at all. -/
theorem scrape_full_error_marker_is_error :
    (Scraper.scrape_full fetchErrMarker "20185" "0110601").1 =
      .fail (.parse "course title") ∧
    (Scraper.scrape_full fetchErrMarker "20185" "0110601").1.isOk = false :=
  ⟨rfl, rfl⟩

/-- **C2 amended**: for every term and course code whose detail page lacks
the expected `body > h1` title element (in particular a page carrying the
portal error marker), `scrape_full` fails with the extraction error
`ParseError("course title")` after the first portal call; nonexistence is
reported as an error, never as an absent result. -/
theorem scrape_full_missing_title_error (fetch : Fetch) (term code : String)
    (cs sec : List Char) (doc : Node)
    (hsplit : splitAtByte code.data 7 = some (cs, sec))
    (hf : fetch (.courseDetails term (String.mk cs) (String.mk sec)) = .ok doc)
    (htitle : findTitle doc = none) :
    Scraper.scrape_full fetch term code =
      (.fail (.parse "course title"),
       [.courseDetails term (String.mk cs) (String.mk sec)]) := by
  have hext : extractMain doc = .fail (.parse "course title") := by
    unfold extractMain
    rw [htitle]
  unfold Scraper.scrape_full
  rw [hsplit]
  simp only [hf, hext]

/-- Witness for C2: the error-marker portal instance. -/
theorem scrape_full_missing_title_error_witness :
    Scraper.scrape_full fetchErrMarker "20185" "0110601" =
      (.fail (.parse "course title"),
       [.courseDetails "20185" "0110601" ""]) :=
  scrape_full_missing_title_error fetchErrMarker "20185" "0110601"
    "0110601".data "".data errMarkerDoc rfl rfl rfl

/-- **C3**: if the portal reaches one course code `c` of one term whose
basic scrape fails, the whole corpus build fails: `Scraper::scrape` does
not return a corpus, and the build path of `CourseIndex::open` yields no
index, hands no document to the index writer, and never commits — no
partial index ever becomes queryable. -/
theorem build_fails_on_basic_scrape_failure (fetch : Fetch)
    (persisted : List IndexedDoc) (tdoc cdoc : Node) (sel opt tbody : NodeRef)
    (tcode : String) (codes : List String) (c : String)
    (h1 : fetch .termList = .ok tdoc)
    (h2 : acadTermSelect tdoc = some sel)
    (h3 : opt ∈ sel.childrenRefs.filter (fun n => NodeRef.is n (.name "option")))
    (h4 : NodeRef.attr opt "value" = some tcode)
    (h5 : fetch (.courseList tcode) = .ok cdoc)
    (h6 : courseResultsBody cdoc = some tbody)
    (h7 : mapCollect rowCode
      (tbody.childrenRefs.filter (fun n => NodeRef.is n (.name "tr"))) =
        .ok codes)
    (h8 : c ∈ codes)
    (h9 : (Scraper.scrape_basic fetch tcode c).isOk = false) :
    (Scraper.scrape fetch).isOk = false ∧
    (CourseIndex.open' false persisted fetch).1.isOk = false ∧
    (CourseIndex.open' false persisted fetch).2.docsAdded = [] ∧
    (CourseIndex.open' false persisted fetch).2.committed = false := by
  have hsc : (Scraper.scrape_courses fetch tcode).isOk = false := by
    unfold Scraper.scrape_courses
    rw [h5]
    dsimp only
    rw [h6]
    dsimp only
    rw [h7]
    dsimp only [Outcome.bind]
    exact mapCollect_not_ok_of_mem _ h8 (by rw [Outcome.isOk_map]; exact h9)
  have hte : (termEntry fetch opt).isOk = false := by
    unfold termEntry
    rw [h4]
    dsimp only
    cases hsc2 : Scraper.scrape_courses fetch tcode with
    | panicked => rfl
    | fail e => rfl
    | ok v =>
      rw [hsc2] at hsc
      simp [Outcome.isOk] at hsc
  have hs : (Scraper.scrape fetch).isOk = false := by
    unfold Scraper.scrape
    rw [h1]
    dsimp only
    rw [h2]
    dsimp only
    exact mapCollect_not_ok_of_mem _ h3 hte
  refine ⟨hs, ?_⟩
  unfold CourseIndex.open'
  cases hso : Scraper.scrape fetch with
  | panicked => simp [Outcome.isOk]
  | fail e => simp [Outcome.isOk]
  | ok v =>
    rw [hso] at hs
    simp [Outcome.isOk] at hs

/-- Witness for C3: the portal whose detail requests all fail with a
transport error; the single course `0110601001` of term `20185` fails its
basic scrape, and the build commits nothing. -/
theorem build_fails_on_basic_scrape_failure_witness :
    (Scraper.scrape fetchFailBasic).isOk = false ∧
    (CourseIndex.open' false [] fetchFailBasic).1.isOk = false ∧
    (CourseIndex.open' false [] fetchFailBasic).2.docsAdded = [] ∧
    (CourseIndex.open' false [] fetchFailBasic).2.committed = false :=
  build_fails_on_basic_scrape_failure fetchFailBasic [] termListDoc
    courseListDoc (selectNode, [termBody, termListDoc])
    (optionNode, [selectNode, termBody, termListDoc])
    (tbodyNode, [tableNode, resultsDiv, courseBody, courseListDoc])
    "20185" ["0110601001"] "0110601001"
    rfl rfl (List.Mem.head _) rfl rfl rfl rfl (List.Mem.head _) rfl

/-- **C4**: whatever the corpus, the parser, the scorer and the query, a
successful `CourseIndex::query` returns at most 10 previews
(`TopCollector::with_limit(10)`). -/
theorem query_at_most_ten (idx : CourseIndex)
    (parse : String → Except String (IndexedDoc → Bool))
    (score : IndexedDoc → Nat) (term q : String) (ps : List CoursePreview)
    (h : idx.query parse score term q = .ok ps) : ps.length ≤ 10 := by
  unfold CourseIndex.query at h
  cases hp : parse q with
  | error e =>
    rw [hp] at h
    simp at h
  | ok um =>
    rw [hp] at h
    dsimp only at h
    simp only [Except.ok.injEq] at h
    subst h
    rw [List.length_map, List.length_take]
    exact min_le_left _ _

/-- Witness for C4: a twelve-document corpus, all matching; ten previews
come back. -/
theorem query_at_most_ten_witness : c4ps.length ≤ 10 :=
  query_at_most_ten ⟨bigCorpus⟩ parseAny scoreConst "20185" "search" c4ps rfl

/-- **C5**: the term filter is a mandatory exact-equality `Occur::Must`
conjunct: a query for `termA` never returns a preview of a different term
`termB`, whatever the free-text query matches. -/
theorem query_term_filter_exact (idx : CourseIndex)
    (parse : String → Except String (IndexedDoc → Bool))
    (score : IndexedDoc → Nat) (termA termB q : String)
    (ps : List CoursePreview) (hne : termA ≠ termB)
    (h : idx.query parse score termA q = .ok ps) :
    ∀ p ∈ ps, p.term ≠ termB := by
  intro p hp
  unfold CourseIndex.query at h
  cases hq : parse q with
  | error e =>
    rw [hq] at h
    simp at h
  | ok um =>
    rw [hq] at h
    dsimp only at h
    simp only [Except.ok.injEq] at h
    subst h
    simp only [List.mem_map] at hp
    obtain ⟨d, hd, hpd⟩ := hp
    have hd2 : d ∈ sortByScore score
        (idx.corpus.filter (fun d => um d && d.term == termA)) :=
      List.mem_of_mem_take hd
    rw [mem_sortByScore] at hd2
    have hflt := (List.mem_filter.mp hd2).2
    simp only [Bool.and_eq_true, beq_iff_eq] at hflt
    rw [← hpd]
    simpa [hflt.2] using hne

/-- Witness for C5: a two-term corpus where both descriptions match the
text; the `20185` query returns only the `20185` preview, whose term is
not `20191`. -/
theorem query_term_filter_exact_witness :
    (⟨"20185", "0110601001", "Graph Theory"⟩ : CoursePreview).term ≠
      "20191" :=
  query_term_filter_exact ⟨twoTermCorpus⟩ parseAny scoreConst "20185" "20191"
    "graphs" [⟨"20185", "0110601001", "Graph Theory"⟩] (by decide) rfl
    ⟨"20185", "0110601001", "Graph Theory"⟩ (List.Mem.head _)

/-- **C6**: an unparseable free-text query makes `CourseIndex::query` fail
with `QueryError`, a constructor distinct from every other failure kind
(extraction `ParseError`, transport, index I/O), so callers can tell bad
input from system failure by downcast, as `Handler::fetch_course` does. -/
theorem query_parse_error_is_query_error (idx : CourseIndex)
    (parse : String → Except String (IndexedDoc → Bool))
    (score : IndexedDoc → Nat) (term q e : String)
    (h : parse q = .error e) :
    idx.query parse score term q = .error (.query e) ∧
    (∀ s, Err.query e ≠ Err.parse s) ∧
    (∀ s, Err.query e ≠ Err.transport s) ∧
    (∀ s, Err.query e ≠ Err.io s) := by
  refine ⟨?_, by simp, by simp, by simp⟩
  unfold CourseIndex.query
  rw [h]

/-- Witness for C6: a parser rejecting the input. -/
theorem query_parse_error_is_query_error_witness :
    CourseIndex.query ⟨[]⟩ parseReject scoreConst "20185" "((" =
      .error (.query "unbalanced parenthesis") ∧
    Err.query "unbalanced parenthesis" ≠ Err.parse "course title" ∧
    Err.query "unbalanced parenthesis" ≠ Err.transport "connection refused" ∧
    Err.query "unbalanced parenthesis" ≠ Err.io "storage" :=
  ⟨(query_parse_error_is_query_error ⟨[]⟩ parseReject scoreConst "20185" "(("
      "unbalanced parenthesis" rfl).1,
   (query_parse_error_is_query_error ⟨[]⟩ parseReject scoreConst "20185" "(("
      "unbalanced parenthesis" rfl).2.1 "course title",
   (query_parse_error_is_query_error ⟨[]⟩ parseReject scoreConst "20185" "(("
      "unbalanced parenthesis" rfl).2.2.1 "connection refused",
   (query_parse_error_is_query_error ⟨[]⟩ parseReject scoreConst "20185" "(("
      "unbalanced parenthesis" rfl).2.2.2 "storage"⟩

/-- **C7**: the schema of `CourseIndex::open` marks `term` exact-match
(raw tokenizer, stored), tokenizes `code` and `title` with the registered
"ngram" pipeline — fixed-length 3-char windows, the 40-byte long-token
filter (vacuous on 3-grams), lower-cased — and gives `description` the
default word tokenizer, whose tokens are maximal nonempty alphanumeric
runs. -/
theorem schema_ngram_term_exact :
    schemaTokenizer "term" = some "raw" ∧ termOptions.stored = true ∧
    schemaTokenizer "code" = some "ngram" ∧
    schemaTokenizer "title" = some "ngram" ∧
    schemaTokenizer "description" = some "default" ∧
    (∀ s : String, registeredNgram s =
      (windows3 s.data).map (fun w => String.mk (w.map Char.toLower))) ∧
    (∀ (s t : String), t ∈ registeredNgram s → t.length = 3) ∧
    (∀ (s : String) (t : List Char), t ∈ simpleTokens s →
      t ≠ [] ∧ t.all Char.isAlphanum) := by
  refine ⟨rfl, rfl, rfl, rfl, rfl, ?_, ?_, ?_⟩
  · intro s
    unfold registeredNgram
    rw [List.filter_eq_self.mpr]
    intro t ht
    have h3 := windows3_mem_length s.data t ht
    simp [h3]
  · intro s t ht
    unfold registeredNgram at ht
    simp only [List.mem_map] at ht
    obtain ⟨w, hw, hwt⟩ := ht
    have hw2 : w ∈ windows3 s.data := (List.mem_filter.mp hw).1
    have hlen := windows3_mem_length s.data w hw2
    rw [← hwt]
    simp [String.length, hlen]
  · intro s t ht
    exact splitRuns_tokens Char.isAlphanum s.data [] (by simp) t ht

/-- Witness for C7: the code `AbCd` yields exactly the lower-cased
3-windows `abc`, `bcd`; a token of the description tokenizer is a nonempty
alphanumeric run. -/
theorem schema_ngram_term_exact_witness :
    registeredNgram "AbCd" = ["abc", "bcd"] ∧
    ("abc" : String).length = 3 ∧
    (['g', 'r', 'a', 'p', 'h'] ≠ ([] : List Char) ∧
      ['g', 'r', 'a', 'p', 'h'].all Char.isAlphanum) :=
  ⟨(schema_ngram_term_exact.2.2.2.2.2.1 "AbCd").trans rfl,
   schema_ngram_term_exact.2.2.2.2.2.2.1 "AbCd" "abc" (by decide),
   schema_ngram_term_exact.2.2.2.2.2.2.2 "graph theory"
     ['g', 'r', 'a', 'p', 'h'] (by decide)⟩

/-- **C8**: `CourseIndex::open` branches solely on the presence of the
index directory: when it exists the persisted index is loaded with no
scrape, no document added, no commit; when absent the full corpus is
scraped, every tuple becomes an indexed document and the writer commits. -/
theorem open_branches_on_dir_presence (persisted : List IndexedDoc)
    (fetch : Fetch) :
    CourseIndex.open' true persisted fetch =
      (.ok ⟨persisted⟩, ⟨false, [], false⟩) ∧
    (∀ data, Scraper.scrape fetch = .ok data →
      CourseIndex.open' false persisted fetch =
        (.ok ⟨corpusDocs data⟩, ⟨true, corpusDocs data, true⟩)) := by
  refine ⟨rfl, fun data h => ?_⟩
  unfold CourseIndex.open'
  simp [h]

/-- Witness for C8: with storage present nothing is scraped or written;
with storage absent the happy-path portal yields the one-course corpus,
committed. -/
theorem open_branches_on_dir_presence_witness :
    CourseIndex.open' true [⟨"20191", "c", "t", "d"⟩] fetchAll =
      (.ok ⟨[⟨"20191", "c", "t", "d"⟩]⟩, ⟨false, [], false⟩) ∧
    CourseIndex.open' false [⟨"20191", "c", "t", "d"⟩] fetchAll =
      (.ok ⟨[⟨"20185", "0110601001", "Intro to Proofs",
            "A course about proofs."⟩]⟩,
       ⟨true, [⟨"20185", "0110601001", "Intro to Proofs",
            "A course about proofs."⟩], true⟩) :=
  ⟨(open_branches_on_dir_presence [⟨"20191", "c", "t", "d"⟩] fetchAll).1,
   (open_branches_on_dir_presence [⟨"20191", "c", "t", "d"⟩] fetchAll).2
     [("20185", [("0110601001", "Intro to Proofs",
       "A course about proofs.")])] rfl⟩

/-- **C9 counterexample**: with the active-index slot empty (a rebuild
already in flight), an admin reindex call is a silent no-op — it sends no
message and returns the same plain `Ok(())` a rebuild-starting call
returns, so nothing reports "already in progress". -/
theorem reindex_second_call_is_silent :
    Handler.reindex true ⟨none, false⟩ =
      (⟨none, false⟩, ⟨false, false, []⟩, .ok ()) ∧
    (Handler.reindex true ⟨some ⟨[]⟩, true⟩).2.2 = .ok () :=
  ⟨rfl, rfl⟩

/-- **C9 amended**: at most one rebuild is in flight: a reindex call while
the active-index slot is empty is a silent no-op — state unchanged, no
index storage removed, no second build started, no message sent, plain
success returned (the code does not report "already in progress"). -/
theorem reindex_second_call_noop (st : BotState)
    (h : st.activeIndex = none) :
    Handler.reindex true st = (st, ⟨false, false, []⟩, .ok ()) := by
  unfold Handler.reindex
  simp [h]

/-- Witness for C9. -/
theorem reindex_second_call_noop_witness :
    Handler.reindex true ⟨none, true⟩ =
      (⟨none, true⟩, ⟨false, false, []⟩, .ok ()) :=
  reindex_second_call_noop ⟨none, true⟩ rfl
